import Mathlib

/-!
Verification of the client-side domain-status logic of the dca-frontend
repository: stock-badge classification (`getStockBadge` in
`src/views/products/ProductTable.tsx`) and assignment overdue/duration
derivation (`src/views/products/AssignmentDetailsPage.tsx`).

Timestamps are modelled as milliseconds since the epoch.  A JavaScript
`Date` may be an *Invalid Date* (its time value is `NaN`): we model a
`Date` value as `Option Int`, where `none` stands for an Invalid Date.
`date-fns` `isAfter a b` compares time values with `>` (false whenever a
`NaN` is involved) and `differenceInDays a b` yields the timestamp
difference in whole days truncated toward zero (`NaN`, i.e. `none`, when
either date is invalid).
-/

/-- A JavaScript `Date` value: `some t` is a valid date with time value
`t` in milliseconds since the epoch, `none` is an Invalid Date (`NaN`). -/
abbrev JSDate : Type := Option Int

/-- Milliseconds in one day, the unit used by `differenceInDays`. -/
def msPerDay : Int := 86400000

/-- `date-fns` `isAfter(date, dateToCompare)`: true iff the time value of
`date` is strictly greater than that of `dateToCompare`; any comparison
involving `NaN` (an Invalid Date) is false. -/
def isAfterJS (date dateToCompare : JSDate) : Bool :=
  match date, dateToCompare with
  | some a, some b => decide (b < a)
  | _, _ => false

/-- `date-fns` `differenceInDays(left, right)`: the number of whole days
from `right` to `left`, truncated toward zero; `none` (`NaN`) if either
date is invalid. -/
def differenceInDaysJS (left right : JSDate) : Option Int :=
  match left, right with
  | some a, some b => some (Int.tdiv (a - b) msPerDay)
  | _, _ => none

/-! ## Stock classification (`ProductTable.tsx`, `getStockBadge`) -/

/-- The server-supplied `stockStatus` string field of a `StockInfo`. -/
inductive StockStatusField where
  | AVAILABLE
  | LOW_STOCK
  | OUT_OF_STOCK
deriving DecidableEq, Repr

/-- The `StockInfo` snapshot consumed by `getStockBadge`.  The TypeScript
interface declares `stockStatus` as required, but at runtime the field may
be absent from a server response; an absent field is `none` (and hits the
`default` branch of the `switch`, exactly like the value `AVAILABLE`). -/
structure StockInfo where
  totalStock : Int
  availableStock : Int
  assignedStock : Int
  damagedStock : Int
  maintenanceStock : Int
  stockStatus : Option StockStatusField
deriving DecidableEq, Repr

/-- The stock classification displayed by the badge. -/
inductive StockState where
  | OutOfStock
  | LowStock (availableStock : Int)
  | InStock (availableStock : Int)
deriving DecidableEq, Repr

/-- `getStockBadge` from `ProductTable.tsx` (lines 327–338): a `switch` on
the server-provided `stockStatus` field alone.  `OUT_OF_STOCK` maps to the
out-of-stock badge, `LOW_STOCK` to the low-stock badge with the available
count, and everything else — including an absent field — falls through to
the `default` Available badge.  No threshold against `minStockLevel` (or
any other field) is computed client-side. -/
def getStockBadge (stockInfo : StockInfo) : StockState :=
  match stockInfo.stockStatus with
  | some .OUT_OF_STOCK => .OutOfStock
  | some .LOW_STOCK => .LowStock stockInfo.availableStock
  | _ => .InStock stockInfo.availableStock

/-! ## Assignment state (`AssignmentDetailsPage.tsx`) -/

/-- The fields of an assignment snapshot used by the status derivation,
after `new Date` parsing (`AssignmentDetailsPage.tsx` lines 187–189).
`assignedAt` is required (its parse may still be an Invalid Date);
`returnedAt` and `expectedReturnAt` are `none` when the raw field is
absent (or falsy), and `some none` when the field is present but its
string is unparseable (`new Date` yields an Invalid Date). -/
structure Assignment where
  assignedAt : JSDate
  returnedAt : Option JSDate
  expectedReturnAt : Option JSDate
deriving DecidableEq, Repr

/-- `isOverdue` (line 195): `expectedReturnDate && !returnedDate &&
isAfter(new Date(), expectedReturnDate)`.  `now` is the value of the
`new Date()` call at this site. -/
def isOverdue (a : Assignment) (now : Int) : Bool :=
  match a.expectedReturnAt, a.returnedAt with
  | some e, none => isAfterJS (some now) e
  | _, _ => false

/-- `wasOverdue` (line 196): `returnedDate && expectedReturnDate &&
isAfter(returnedDate, expectedReturnDate)`. -/
def wasOverdue (a : Assignment) : Bool :=
  match a.returnedAt, a.expectedReturnAt with
  | some r, some e => isAfterJS r e
  | _, _ => false

/-- `durationDays` (lines 191–192): `differenceInDays(returnedDate ||
new Date(), assignedDate)`. -/
def durationDays (a : Assignment) (now : Int) : Option Int :=
  differenceInDaysJS (a.returnedAt.getD (some now)) a.assignedAt

/-- The tagged assignment state, as the spec's `deriveAssignmentState`
output.  The day counts are `Option Int` because the code's
`differenceInDays` yields `NaN` on an Invalid Date.  `DataError` is the
spec's error variant for malformed timestamps; it is part of the output
type so that the spec's error contract can be stated against the code. -/
inductive AState where
  | Active (durationDays : Option Int)
  | Returned (returnedAt : JSDate)
  | Overdue (daysOverdue : Option Int)
  | ReturnedLate (daysLate : Option Int)
  | DataError
deriving DecidableEq, Repr

/-- The assignment classification that `AssignmentDetailsPage` renders,
with every `new Date()` read returning the same value `now`: if
`returnedAt` is set the state is terminal — `ReturnedLate` with
`differenceInDays(returnedDate, expectedReturnDate)` when `wasOverdue`
(lines 420–424), else `Returned` (line 426); otherwise `Overdue` with
`differenceInDays(new Date(), expectedReturnDate)` when `isOverdue`
(lines 229–231 and 287–288), else `Active` with the displayed
`durationDays` (line 277). -/
def deriveAssignmentState (a : Assignment) (now : Int) : AState :=
  if wasOverdue a then
    .ReturnedLate (match a.returnedAt, a.expectedReturnAt with
      | some r, some e => differenceInDaysJS r e
      | _, _ => none)
  else
    match a.returnedAt with
    | some r => .Returned r
    | none =>
      if isOverdue a now then
        .Overdue (match a.expectedReturnAt with
          | some e => differenceInDaysJS (some now) e
          | none => none)
      else
        .Active (durationDays a now)

/-- The same classification with the ambient clock made explicit: the
component contains three separate `new Date()` call sites — in `endDate`
(line 191), in `isOverdue` (line 195) and in the overdue-days display
(line 288) — and `clock i` is the value returned by the `i`-th site.
Nothing ties the three readings together. -/
def pageDeriveState (a : Assignment) (clock : Nat → Int) : AState :=
  if wasOverdue a then
    .ReturnedLate (match a.returnedAt, a.expectedReturnAt with
      | some r, some e => differenceInDaysJS r e
      | _, _ => none)
  else
    match a.returnedAt with
    | some r => .Returned r
    | none =>
      if isOverdue a (clock 1) then
        .Overdue (match a.expectedReturnAt with
          | some e => differenceInDaysJS (some (clock 2)) e
          | none => none)
      else
        .Active (durationDays a (clock 0))

/-- A state is terminal iff it is `Returned` or `ReturnedLate`. -/
def AState.isTerminal : AState → Bool
  | .Returned _ => true
  | .ReturnedLate _ => true
  | _ => false

/-! ## Claims about stock classification -/

/-- C1 (counterexample): with `availableStock = 3` and no server
`stockStatus` field, `getStockBadge` does NOT recompute the low-stock
threshold client-side: the `switch` falls through to the `default`
Available badge, so the derived state is `InStock 3`, not `LowStock 3`
(`minStockLevel = 5` is not even an input of the function). -/
theorem c1_counterexample :
    getStockBadge ⟨10, 3, 7, 0, 0, none⟩ = StockState.InStock 3 ∧
    getStockBadge ⟨10, 3, 7, 0, 0, none⟩ ≠ StockState.LowStock 3 := by
  decide

/-- C1 (amended): when the server `stockStatus` field is absent, no
client-side recomputation from thresholds happens: the `switch` falls
through to the `default` branch and the state is `InStock availableStock`
whatever `availableStock` and `minStockLevel` are. -/
theorem c1_absent_status_defaults_to_instock (s : StockInfo)
    (h : s.stockStatus = none) :
    getStockBadge s = StockState.InStock s.availableStock := by
  simp [getStockBadge, h]

/-- C1 witness: the amended rule at the scenario input. -/
theorem c1_absent_status_defaults_to_instock_witness :
    getStockBadge ⟨10, 3, 7, 0, 0, none⟩ = StockState.InStock 3 :=
  c1_absent_status_defaults_to_instock ⟨10, 3, 7, 0, 0, none⟩ rfl

/-- C2 (counterexample): a snapshot with `availableStock = 0` is NOT
always classified `OutOfStock`: `getStockBadge` looks only at the server
`stockStatus` field, so with that field absent (and any `minStockLevel`,
e.g. 5) the state is `InStock 0`. -/
theorem c2_counterexample :
    getStockBadge ⟨10, 0, 10, 0, 0, none⟩ ≠ StockState.OutOfStock ∧
    getStockBadge ⟨10, 0, 10, 0, 0, none⟩ = StockState.InStock 0 := by
  decide

/-- C2 (amended): every snapshot — in particular one with
`availableStock = 0` — is classified `OutOfStock` exactly when the server
`stockStatus` field says `OUT_OF_STOCK`: the classification depends only
on that field (`LOW_STOCK`, `AVAILABLE` and an absent field never yield
`OutOfStock`), regardless of `availableStock` and of `minStockLevel`
(which the function does not read). -/
theorem c2_out_of_stock_iff_status (s : StockInfo) :
    getStockBadge s = StockState.OutOfStock ↔
      s.stockStatus = some StockStatusField.OUT_OF_STOCK := by
  cases h : s.stockStatus with
  | none => simp [getStockBadge, h]
  | some v => cases v <;> simp [getStockBadge, h]

/-! ## Claims about assignment state -/

/-- C10: the OVERDUE badge condition (`isOverdue`) and the WAS OVERDUE
badge condition (`wasOverdue`) are mutually exclusive for every
assignment and every current time: `isOverdue` requires `returnedAt`
unset and `wasOverdue` requires it set. -/
theorem c10_overdue_mutually_exclusive (a : Assignment) (now : Int) :
    (isOverdue a now && wasOverdue a) = false := by
  cases h : a.returnedAt <;> cases h2 : a.expectedReturnAt <;>
    simp [isOverdue, wasOverdue, h, h2]

/-- C8: the scenario assignment (`assignedAt = 2024-01-01`,
`expectedReturnAt = 2024-01-10`, `returnedAt` unset) evaluated at
`now = 2024-01-15` (all instants UTC midnight, in epoch milliseconds)
derives `Overdue` with `daysOverdue = 5`, and 5 is exactly
`differenceInDays(now, expectedReturnAt)`, the whole-day truncated
difference. -/
theorem c8_overdue_scenario :
    deriveAssignmentState
        ⟨some 1704067200000, none, some (some 1704844800000)⟩
        1705276800000 = AState.Overdue (some 5) ∧
    differenceInDaysJS (some 1705276800000) (some 1704844800000) = some 5 := by
  decide

/-- C3: for an assignment with `expectedReturnAt = T` (a valid timestamp)
and `returnedAt` unset, the derived state is `Overdue` iff `now` is
strictly after `T` (`isAfter` uses strict `>`); at `now = T` exactly the
state is `Active` with the displayed duration. -/
theorem c3_overdue_iff_strictly_after (a : Assignment) (T now : Int)
    (he : a.expectedReturnAt = some (some T)) (hr : a.returnedAt = none) :
    ((∃ d, deriveAssignmentState a now = AState.Overdue d) ↔ T < now) ∧
    (now = T → deriveAssignmentState a now = AState.Active (durationDays a now)) := by
  have hw : wasOverdue a = false := by simp [wasOverdue, hr]
  have hi : isOverdue a now = decide (T < now) := by
    simp [isOverdue, he, hr, isAfterJS]
  refine ⟨⟨?_, ?_⟩, ?_⟩
  · rintro ⟨d, hd⟩
    by_contra hlt
    simp [deriveAssignmentState, hw, hr, hi, hlt] at hd
  · intro hlt
    refine ⟨differenceInDaysJS (some now) (some T), ?_⟩
    simp [deriveAssignmentState, hw, hr, hi, hlt, he]
  · intro hnow
    subst hnow
    simp [deriveAssignmentState, hw, hr, hi]

/-- C3 witness: at `now = T` exactly (here both 100), the state is
`Active`, not `Overdue`. -/
theorem c3_overdue_iff_strictly_after_witness :
    ((∃ d, deriveAssignmentState ⟨some 0, none, some (some 100)⟩ 100 =
        AState.Overdue d) ↔ (100 : Int) < 100) ∧
    ((100 : Int) = 100 →
      deriveAssignmentState ⟨some 0, none, some (some 100)⟩ 100 =
        AState.Active (durationDays ⟨some 0, none, some (some 100)⟩ 100)) :=
  c3_overdue_iff_strictly_after ⟨some 0, none, some (some 100)⟩ 100 100 rfl rfl

/-- C4 (counterexample): a return one millisecond after the expected
instant (`T = 0`, `R = 1`) derives `ReturnedLate` with
`daysLate = floor(1ms / 1 day) = 0`, so `daysLate ≥ 1` fails: the strict
`isAfter` guard admits sub-day lateness whose truncated day count is 0. -/
theorem c4_counterexample :
    deriveAssignmentState ⟨some 0, some (some 1), some (some 0)⟩ 0 =
      AState.ReturnedLate (some 0) ∧ ¬ (1 ≤ (0 : Int)) := by
  decide

/-- C4 (amended): for `returnedAt = R` and `expectedReturnAt = T` valid
timestamps with `R` strictly after `T`, the state is `ReturnedLate` with
`daysLate = floor((R - T) / 1 day)`; this count is always ≥ 0, and it is
≥ 1 exactly when `R` is at least one full day after `T` (it is 0 for
sub-day lateness). -/
theorem c4_returned_late_days (a : Assignment) (R T now : Int)
    (hr : a.returnedAt = some (some R))
    (he : a.expectedReturnAt = some (some T)) (hlt : T < R) :
    deriveAssignmentState a now =
      AState.ReturnedLate (some (Int.tdiv (R - T) msPerDay)) ∧
    0 ≤ Int.tdiv (R - T) msPerDay ∧
    (T + msPerDay ≤ R ↔ 1 ≤ Int.tdiv (R - T) msPerDay) := by
  have hw : wasOverdue a = true := by
    simp [wasOverdue, hr, he, isAfterJS, hlt]
  have hsub : (0 : Int) ≤ R - T := by omega
  have hms : (0 : Int) ≤ msPerDay := by decide
  have hdiv : Int.tdiv (R - T) msPerDay = (R - T) / msPerDay :=
    Int.tdiv_eq_ediv hsub hms
  refine ⟨?_, ?_, ?_⟩
  · simp [deriveAssignmentState, hw, hr, he, differenceInDaysJS]
  · exact Int.tdiv_nonneg hsub hms
  · rw [hdiv]
    unfold msPerDay
    omega

/-- C4 witness: a return exactly two days late yields `daysLate = 2 ≥ 1`. -/
theorem c4_returned_late_days_witness :
    deriveAssignmentState ⟨some 0, some (some 172800000), some (some 0)⟩ 0 =
      AState.ReturnedLate (some (Int.tdiv ((172800000 : Int) - 0) msPerDay)) ∧
    0 ≤ Int.tdiv ((172800000 : Int) - 0) msPerDay ∧
    ((0 : Int) + msPerDay ≤ 172800000 ↔
      1 ≤ Int.tdiv ((172800000 : Int) - 0) msPerDay) :=
  c4_returned_late_days ⟨some 0, some (some 172800000), some (some 0)⟩
    172800000 0 0 rfl rfl (by decide)

/-- C5 (counterexample): an assignment whose `returnedAt` field is
present but unparseable (`new Date` gives an Invalid Date, modelled
`some none`) does NOT derive `DataError`: the truthy Invalid Date makes
the assignment terminal, `isAfter(Invalid, T)` is false, and the page
classifies it as an on-time `Returned` — the code has no `DataError`
value at all. -/
theorem c5_counterexample :
    deriveAssignmentState ⟨some 0, some none, some (some 864000000)⟩ 0 ≠
      AState.DataError ∧
    deriveAssignmentState ⟨some 0, some none, some (some 864000000)⟩ 0 =
      AState.Returned none := by
  decide

/-- C5 (amended): the derivation is total and never raises — every input
yields a state value — but a malformed timestamp is not surfaced as a
`DataError` result: no input ever derives `DataError`, and an assignment
with an unparseable `returnedAt` is silently classified as an on-time
`Returned` (carrying the Invalid Date). -/
theorem c5_no_data_error (a : Assignment) (now : Int) :
    deriveAssignmentState a now ≠ AState.DataError ∧
    (a.returnedAt = some none →
      deriveAssignmentState a now = AState.Returned none) := by
  constructor
  · unfold deriveAssignmentState
    split
    · simp
    · split
      · simp
      · split <;> simp
  · intro h
    have hw : wasOverdue a = false := by
      cases he : a.expectedReturnAt <;> simp [wasOverdue, h, he, isAfterJS]
    simp [deriveAssignmentState, hw, h]

/-- C5 witness: the never-`DataError` rule at the counterexample's input,
with the malformed-`returnedAt` hypothesis discharged. -/
theorem c5_no_data_error_witness :
    deriveAssignmentState ⟨some 0, some none, some (some 864000000)⟩ 0 ≠
      AState.DataError ∧
    ((⟨some 0, some none, some (some 864000000)⟩ : Assignment).returnedAt =
        some none →
      deriveAssignmentState ⟨some 0, some none, some (some 864000000)⟩ 0 =
        AState.Returned none) :=
  c5_no_data_error ⟨some 0, some none, some (some 864000000)⟩ 0

/-- C6 (counterexample): the current time is NOT an explicit input of the
page's derivation — each `new Date()` site reads the ambient global
clock.  Rendering the identical assignment snapshot (assigned at epoch,
expected return at day 10, not returned) under two ambient clocks, one
at day 5 and one at day 15, produces different outputs (`Active` vs
`Overdue`), so the output is not a function of the supplied snapshot
inputs alone. -/
theorem c6_counterexample :
    pageDeriveState ⟨some 0, none, some (some 864000000)⟩
        (fun _ => 432000000) ≠
      pageDeriveState ⟨some 0, none, some (some 864000000)⟩
        (fun _ => 1296000000) := by
  decide

/-- C6 (amended): the code reads the global clock (`new Date()`) at three
separate sites instead of taking `now` as a parameter; the derivation is
deterministic only relative to those readings: when every clock read
returns the same value `now`, the page's result coincides with the pure
function of `(assignment, now)`, so two evaluations with the same
snapshot and the same clock readings give identical output. -/
theorem c6_deterministic_given_clock (a : Assignment) (now : Int) :
    pageDeriveState a (fun _ => now) = deriveAssignmentState a now := rfl

/-- C7: an assignment with `returnedAt` set (even to an unparseable
date) is terminal — `Returned` or `ReturnedLate` — and is never
`Overdue`, for every current time `now`. -/
theorem c7_returned_is_terminal (a : Assignment) (r : JSDate) (now : Int)
    (h : a.returnedAt = some r) :
    (deriveAssignmentState a now).isTerminal = true ∧
    ∀ d, deriveAssignmentState a now ≠ AState.Overdue d := by
  by_cases hw : wasOverdue a = true
  · simp [deriveAssignmentState, hw, AState.isTerminal]
  · simp only [Bool.not_eq_true] at hw
    simp [deriveAssignmentState, hw, h, AState.isTerminal]

/-- C7 witness: a returned assignment far past its expected return date
stays terminal and non-`Overdue` at a very late `now`. -/
theorem c7_returned_is_terminal_witness :
    (deriveAssignmentState ⟨some 0, some (some 5), none⟩
        99999999999).isTerminal = true ∧
    ∀ d, deriveAssignmentState ⟨some 0, some (some 5), none⟩
        99999999999 ≠ AState.Overdue d :=
  c7_returned_is_terminal ⟨some 0, some (some 5), none⟩ (some 5)
    99999999999 rfl

/-- C9: an assignment returned at or before its expected return instant
(`R ≤ T`, both valid timestamps) derives `Returned` (with the return
date), never `ReturnedLate`, for every current time `now`. -/
theorem c9_on_time_return (a : Assignment) (R T now : Int)
    (hr : a.returnedAt = some (some R))
    (he : a.expectedReturnAt = some (some T)) (hle : R ≤ T) :
    deriveAssignmentState a now = AState.Returned (some R) ∧
    ∀ d, deriveAssignmentState a now ≠ AState.ReturnedLate d := by
  have hw : wasOverdue a = false := by
    simp [wasOverdue, hr, he, isAfterJS]
    omega
  simp [deriveAssignmentState, hw, hr]

/-- C9 witness: a return exactly at the expected instant derives
`Returned`, not `ReturnedLate`. -/
theorem c9_on_time_return_witness :
    deriveAssignmentState ⟨some 0, some (some 100), some (some 100)⟩ 500 =
      AState.Returned (some 100) ∧
    ∀ d, deriveAssignmentState ⟨some 0, some (some 100), some (some 100)⟩
        500 ≠ AState.ReturnedLate d :=
  c9_on_time_return ⟨some 0, some (some 100), some (some 100)⟩ 100 100 500
    rfl rfl (by decide)
